import Mathlib

/-! Verification development for the nepal-sambat-converter engine.

The TypeScript source is embedded shallowly over `ℚ`:

* IEEE doubles are modelled as exact rationals; every numeric literal of the
  source is carried over verbatim as a rational constant.
* The JavaScript remainder operator `%` on fractional values (truncated
  toward zero) is modelled by `jsMod`; on integer values it is `Int.tmod`.
  `Math.floor` and `Math.ceil` are `Int.floor` / `Int.ceil`.
* `Math.sin` only ever occurs applied to arguments of the form
  `x * DEG_TO_RAD`; the composite map `x ↦ Math.sin (x * π / 180)` is
  abstracted as an explicit function parameter `s : ℚ → ℚ`, and every theorem
  quantifies over it, so each conclusion holds in particular for the real
  sine.
* `getSunriseJD` is a transcendental computation (it also needs `asin`,
  `acos`, `cos` and the irrational factor `180 / π`) whose internals no
  stated property depends on; it is abstracted as a function parameter
  `rise : ℚ → ℚ`, again universally quantified, standing for the map from a
  day's JD to the JD of local sunrise.
* Fallible code (`gregorianToJD` throws on malformed dates) is modelled with
  `Except String`.
-/

namespace NepalSambat

/-- JavaScript truncation toward zero, `Math.trunc`. -/
def jsTrunc (q : ℚ) : ℤ := if q < 0 then ⌈q⌉ else ⌊q⌋

/-- JavaScript remainder `x % y` for floating values: the sign follows the
dividend. -/
def jsMod (x y : ℚ) : ℚ := x - y * jsTrunc (x / y)

/-- The source's normalisation idiom `v % 360` followed by
`if (v < 0) v += 360` (used by `getSolarLongitude` and `getLunarLongitude`). -/
def normalize360 (x : ℚ) : ℚ :=
  let r := jsMod x 360
  if r < 0 then r + 360 else r

/-- `J2000` from `src/constants/values.ts`. -/
def J2000 : ℚ := 2451545

/-- Field layout of `SOLAR_CONSTANTS` in `src/constants/types.ts`. -/
structure SolarConstants where
  L0 : ℚ
  M0 : ℚ
  L1 : ℚ
  M1 : ℚ
  C1 : ℚ
  C2 : ℚ
  C3 : ℚ

/-- `SOLAR_CONSTANTS` from `src/constants/values.ts`. -/
def SOLAR_CONSTANTS : SolarConstants :=
  ⟨280.46646, 357.52911, 36000.76983, 35999.05029, 1.914602, 0.019993, 0.000289⟩

/-- Field layout of `LUNAR_CONSTANTS` in `src/constants/types.ts`. -/
structure LunarConstants where
  L0 : ℚ
  P0 : ℚ
  N0 : ℚ
  L1 : ℚ
  P1 : ℚ
  N1 : ℚ
  EVECTION : ℚ
  VARIATION : ℚ
  YEARLY_EQ : ℚ
  PARALLACTIC : ℚ

/-- `LUNAR_CONSTANTS` from `src/constants/values.ts`. -/
def LUNAR_CONSTANTS : LunarConstants :=
  ⟨218.3164591, 83.353243, 125.044555, 481267.88134236, 4069.0136776, -1934.1361849,
   1.2739, 0.6583, 0.1858, 0.214⟩

/-- `getSolarLongitude` from `src/astronomy/calculations.ts`.  `s` abstracts
`x ↦ Math.sin (x * DEG_TO_RAD)`. -/
def getSolarLongitude (s : ℚ → ℚ) (jd : ℚ) : ℚ :=
  let T := (jd - J2000) / 36525
  let L := SOLAR_CONSTANTS.L0 + SOLAR_CONSTANTS.L1 * T
  let M := SOLAR_CONSTANTS.M0 + SOLAR_CONSTANTS.M1 * T
  let C := SOLAR_CONSTANTS.C1 * s M + SOLAR_CONSTANTS.C2 * s (2 * M) +
    SOLAR_CONSTANTS.C3 * s (3 * M)
  normalize360 (L + C)

/-- `getLunarLongitude` from `src/astronomy/calculations.ts`. -/
def getLunarLongitude (s : ℚ → ℚ) (jd : ℚ) : ℚ :=
  let T := (jd - J2000) / 36525
  let L := LUNAR_CONSTANTS.L0 + LUNAR_CONSTANTS.L1 * T
  let D := L - SOLAR_CONSTANTS.L0 - SOLAR_CONSTANTS.L1 * T
  let M := SOLAR_CONSTANTS.M0 + SOLAR_CONSTANTS.M1 * T
  let Mp := L - LUNAR_CONSTANTS.P0 - LUNAR_CONSTANTS.P1 * T
  let F := LUNAR_CONSTANTS.N0 + LUNAR_CONSTANTS.N1 * T
  let Ev := LUNAR_CONSTANTS.EVECTION * s (2 * (D - Mp))
  let Ae := LUNAR_CONSTANTS.YEARLY_EQ * s M
  let V := LUNAR_CONSTANTS.VARIATION * s (2 * D)
  let A1 := 0.114 * s (2 * D - Mp)
  let A2 := 0.1858 * s F
  let A3 := 0.37 * s (2 * D + Mp)
  let A4 := 0.2 * s (2 * F)
  let A5 := 0.17 * s (2 * D - M)
  normalize360 (L + Ev - Ae + V + A1 + A2 + A3 + A4 + A5)

/-- Return shape of `checkForAnalaAndNhala` in `src/calendar/conversion.ts`. -/
structure AnalaNhala where
  anala : ℤ
  nhala : ℤ

/-- `checkForAnalaAndNhala` from `src/calendar/conversion.ts`. -/
def checkForAnalaAndNhala (thisMonth nextMonth : ℤ) : AnalaNhala :=
  ⟨if thisMonth = nextMonth then 1 else 0, if nextMonth - thisMonth = 2 then 1 else 0⟩

/-- The leap-year test inside `gregorianToJD` in `src/utils/julian.ts`;
JS `%` on (possibly negative) integers is the truncated remainder
`Int.tmod`. -/
def isLeapYear (y : ℤ) : Bool :=
  (y.tmod 4 == 0 && y.tmod 100 != 0) || y.tmod 400 == 0

/-- The `daysInMonth` array of `gregorianToJD`, with index 2 patched to 29
in a leap year. -/
def daysInMonthList (leap : Bool) : List ℚ :=
  [0, 31, if leap then 29 else 28, 31, 30, 31, 30, 31, 31, 30, 31, 30, 31]

/-- The `daysInMonth[month]` lookup of `gregorianToJD`; only reached with an
integral `month ∈ [1, 12]`, where `⌊month⌋.toNat` is the JS array index. -/
def daysInMonthCode (year month : ℚ) : ℚ :=
  (daysInMonthList (isLeapYear ⌊year⌋)).getD ⌊month⌋.toNat 0

/-- The Julian-day computation of `gregorianToJD` after validation, with the
source's branch on the 1582 calendar reform. -/
def jdCore (year month day : ℚ) : ℚ :=
  let y := if month ≤ 2 then year - 1 else year
  let m := if month ≤ 2 then month + 12 else month
  let a := ⌊y / 100⌋
  let b := ⌊(a : ℚ) / 4⌋
  if 1582 < year ∨ (year = 1582 ∧ 10 < month) ∨ (year = 1582 ∧ month = 10 ∧ 15 ≤ day) then
    (⌊(365.25 : ℚ) * (y + 4716)⌋ : ℚ) + (⌊(30.6001 : ℚ) * (m + 1)⌋ : ℚ) + day +
      ((2 - a + b : ℤ) : ℚ) - 1524.5
  else
    (⌊(365.25 : ℚ) * (y + 4716)⌋ : ℚ) + (⌊(30.6001 : ℚ) * (m + 1)⌋ : ℚ) + day - 1524.5

/-- `gregorianToJD` from `src/utils/julian.ts`.  A `.error` models a thrown
`Error` (the interpolated day/month/year values of the last message are
elided). -/
def gregorianToJD (year month day : ℚ) : Except String ℚ :=
  if year.den ≠ 1 then .error "Year must be an integer."
  else if month.den ≠ 1 ∨ month < 1 ∨ 12 < month then .error "Month must be between 1 and 12."
  else if day.den ≠ 1 ∨ day < 1 ∨ 31 < day then .error "Day must be between 1 and 31."
  else if daysInMonthCode year month < day then .error "Invalid day for the given month and year."
  else .ok (jdCore year month day)

/-- Modelled from the spec: the standard leap-year rule (divisible by 4, not
by 100 unless by 400). -/
def specLeapYear (y : ℤ) : Prop := (4 ∣ y ∧ ¬(100 ∣ y)) ∨ 400 ∣ y

instance (y : ℤ) : Decidable (specLeapYear y) := by
  unfold specLeapYear
  infer_instance

/-- Modelled from the spec: days in a Gregorian month under the standard
leap-year rule. -/
def specDaysInMonth (year month : ℚ) : ℚ :=
  if month = 2 then (if specLeapYear ⌊year⌋ then 29 else 28)
  else if month = 4 ∨ month = 6 ∨ month = 9 ∨ month = 11 then 30
  else 31

/-- Modelled from the spec: a valid Gregorian date has integral year, month
and day, month in `[1, 12]` and day in `[1, days-in-month]`. -/
def validGregorian (year month day : ℚ) : Prop :=
  year.den = 1 ∧ month.den = 1 ∧ day.den = 1 ∧
  1 ≤ month ∧ month ≤ 12 ∧ 1 ≤ day ∧ day ≤ specDaysInMonth year month

instance (year month day : ℚ) : Decidable (validGregorian year month day) := by
  unfold validGregorian
  infer_instance

/-- Modelled from the spec: the date `(year, month, day)` is on or after
15 Oct 1582. -/
def onOrAfterReform (year month day : ℚ) : Prop :=
  1582 < year ∨ (year = 1582 ∧ (10 < month ∨ (month = 10 ∧ 15 ≤ day)))

instance (year month day : ℚ) : Decidable (onOrAfterReform year month day) := by
  unfold onOrAfterReform
  infer_instance

/-- Modelled from the spec: the astronomical Julian-day formula with the
Gregorian correction term `2 - ⌊y/100⌋ + ⌊⌊y/100⌋/4⌋`. -/
def jdWithGregorianCorrection (year month day : ℚ) : ℚ :=
  let y := if month ≤ 2 then year - 1 else year
  let m := if month ≤ 2 then month + 12 else month
  let a := ⌊y / 100⌋
  (⌊(365.25 : ℚ) * (y + 4716)⌋ : ℚ) + (⌊(30.6001 : ℚ) * (m + 1)⌋ : ℚ) + day +
    ((2 - a + ⌊(a : ℚ) / 4⌋ : ℤ) : ℚ) - 1524.5

/-- Modelled from the spec: the same formula without the correction term
(the uncorrected Julian form). -/
def jdJulianForm (year month day : ℚ) : ℚ :=
  let y := if month ≤ 2 then year - 1 else year
  let m := if month ≤ 2 then month + 12 else month
  (⌊(365.25 : ℚ) * (y + 4716)⌋ : ℚ) + (⌊(30.6001 : ℚ) * (m + 1)⌋ : ℚ) + day - 1524.5

/-- `TITHI_NAMES` from `src/constants/values.ts`. -/
def TITHI_NAMES : List String :=
  ["पारु", "द्वितीया", "तृतीया", "चतुर्थी", "पञ्चमी", "षष्ठी", "सप्तमी", "अष्टमी",
   "नवमी", "दशमी", "एकादशी", "द्वादशी", "त्रयोदशी", "चतुर्दशी", "पुन्हि"]

/-- JS array indexing `arr[i]` on a string table: an out-of-range access
yields `undefined`, modelled by the string "undefined". -/
def jsIndexStr (l : List String) (i : ℤ) : String :=
  if 0 ≤ i then l.getD i.toNat "undefined" else "undefined"

/-- The elongation expression `(lunar - solar + 360) % 360` that
`src/calendar/conversion.ts` and the refinement loop of `findLastNewMoonJD`
both inline. -/
def elongationDeg (s : ℚ → ℚ) (t : ℚ) : ℚ :=
  jsMod (getLunarLongitude s t - getSolarLongitude s t + 360) 360

/-- Modelled from the spec (§4.8): a candidate tithi is
`ceil(elongation / 12)` at a reference instant. -/
def tithiCandidate (s : ℚ → ℚ) (t : ℚ) : ℤ :=
  ⌈elongationDeg s t / 12⌉

/-- `calculateTithi` from `src/calendar/conversion.ts`; `rise` abstracts
`getSunriseJD`, and the two `Math.ceil(elongation / 12)` candidates are the
source's `tithiAtSunrise` and `tithiAtMidnight`. -/
def calculateTithi (s rise : ℚ → ℚ) (jd : ℚ) : ℤ :=
  let sunriseJD := rise jd
  let tithiAtSunrise := ⌈elongationDeg s sunriseJD / 12⌉
  let tithiAtMidnight := ⌈elongationDeg s (jd + 0.95) / 12⌉
  if tithiAtSunrise < tithiAtMidnight then tithiAtMidnight else tithiAtSunrise

/-- Field layout of `NSTithi` in `src/constants/types.ts`. -/
structure NSTithi where
  number : ℤ
  adjustedNumber : ℤ
  paksha : String
  name : String
  type : String
deriving DecidableEq

/-- `convertToTithi` from `src/calendar/conversion.ts`.  JS `%` on the
integer `tithi - 1` is `Int.tmod`. -/
def convertToTithi (s rise : ℚ → ℚ) (year month day : ℚ) : Except String NSTithi :=
  (gregorianToJD year month day).map fun jd =>
    let tithi := calculateTithi s rise jd
    let prevTithi := calculateTithi s rise (jd - 1)
    let tithiType := if tithi = prevTithi then "8" else if prevTithi + 2 ≤ tithi then "9" else "0"
    let adjustedTithi := (tithi - 1).tmod 15 + 1
    let paksha := if tithi ≤ 15 then "थ्व" else "गा"
    let name :=
      if adjustedTithi = 15 ∧ paksha = "गा" then "अम्माई"
      else jsIndexStr TITHI_NAMES (adjustedTithi - 1)
    ⟨tithi, adjustedTithi, paksha, name, tithiType⟩

/-- The 13-term periodic correction of `findLastNewMoonJD` in
`src/astronomy/calculations.ts`.  `Mm12` is the lunar mean anomaly passed to
the twelfth term `0.001 * sin(2F - M')`: the source passes the current
lunation's `M_m` there even in the branch that recomputes every other term
from the previous lunation index `k - 1`. -/
def nmCorrection (s : ℚ → ℚ) (t M Mm F Mm12 : ℚ) : ℚ :=
  (0.1734 - 0.000393 * t) * s M + 0.0021 * s (2 * M) - 0.4068 * s Mm +
    0.0161 * s (2 * Mm) - 0.0004 * s (3 * Mm) + 0.0104 * s (2 * F) -
    0.0051 * s (M + Mm) - 0.0074 * s (M - Mm) + 0.0004 * s (2 * F + M) -
    0.0004 * s (2 * F - M) - 0.0006 * s (2 * F + Mm) + 0.001 * s (2 * F - Mm12) +
    0.0005 * s (M + 2 * Mm)

/-- The solar mean anomaly `M`, lunar mean anomaly `M_m` and argument of
latitude `F` of `findLastNewMoonJD` for lunation index `k` at century time
`t`, each reduced `% 360`. -/
def nmAnomalies (k t : ℚ) : ℚ × ℚ × ℚ :=
  (jsMod (359.2242 + 29.10535608 * k - 0.0000333 * t * t - 0.00000347 * t * t * t) 360,
   jsMod (306.0253 + 385.81691806 * k + 0.0107306 * t * t + 0.00001236 * t * t * t) 360,
   jsMod (21.2964 + 390.67050646 * k - 0.0016528 * t * t - 0.00000239 * t * t * t) 360)

/-- The bounded Newton refinement loop of `findLastNewMoonJD`: up to `n`
rounds; stop as soon as `|elongation| < 0.01`, else take one step from the
slope of a 0.01-day backward finite difference.  (In `ℚ` a zero slope makes
`elong / slope` zero and leaves the estimate unchanged, where the source
would produce a non-finite float; no stated property depends on that
case.) -/
def nmRefine (s : ℚ → ℚ) : ℕ → ℚ → ℚ
  | 0, testJD => testJD
  | n + 1, testJD =>
    let elong := elongationDeg s testJD
    if |elong| < 0.01 then testJD
    else
      let prevJD := testJD - 0.01
      let prevElong := elongationDeg s prevJD
      let slope := (elong - prevElong) / 0.01
      nmRefine s n (testJD - elong / slope)

/-- `findLastNewMoonJD` from `src/astronomy/calculations.ts`: closed-form
estimate for lunation `k`, recomputation from `k - 1` when the estimate
overshoots the input JD, then at most 10 refinement rounds. -/
def findLastNewMoonJD (s : ℚ → ℚ) (jd : ℚ) : ℚ :=
  let LUNAR_SYNODIC_MONTH : ℚ := 29.530588861
  let NEW_MOON_REF_JD : ℚ := 2415020.75933
  let t := (jd - 2451545) / 36525
  let k : ℚ := (⌊(jd / 365.25 + (1 - 1) / 12 - 1900) * 12.3685⌋ : ℤ)
  let meanNewMoonJD := NEW_MOON_REF_JD + k * LUNAR_SYNODIC_MONTH
  let M := (nmAnomalies k t).1
  let Mm := (nmAnomalies k t).2.1
  let F := (nmAnomalies k t).2.2
  let newMoonJD := meanNewMoonJD + nmCorrection s t M Mm F Mm
  let newMoonJD2 :=
    if jd < newMoonJD then
      let prevK := k - 1
      let prevM := (nmAnomalies prevK t).1
      let prevMm := (nmAnomalies prevK t).2.1
      let prevF := (nmAnomalies prevK t).2.2
      (NEW_MOON_REF_JD + prevK * LUNAR_SYNODIC_MONTH) + nmCorrection s t prevM prevMm prevF Mm
    else newMoonJD
  nmRefine s 10 newMoonJD2

/-- Entry shape of the `NS_MONTHS` table in `src/constants/values.ts`. -/
structure NSMonthEntry where
  name : String
  nepali : String
  startDeg : ℚ

/-- `NS_MONTHS` from `src/constants/values.ts`. -/
def NS_MONTHS : List NSMonthEntry :=
  [⟨"Kachhalā", "कछला", 210⟩,
   ⟨"Thinlā", "थिंला", 240⟩,
   ⟨"Pwanhelā", "पोहेला", 270⟩,
   ⟨"Silā", "सिला", 300⟩,
   ⟨"Chilā", "चिला", 330⟩,
   ⟨"Chaulā", "चौला", 0⟩,
   ⟨"Bachhalā", "बछला", 30⟩,
   ⟨"Tachhalā", "तछला", 60⟩,
   ⟨"Dilā", "दिला", 90⟩,
   ⟨"Gunlā", "गुंला", 120⟩,
   ⟨"Yanlā", "ञंला", 150⟩,
   ⟨"Kaulā", "कौला", 180⟩]

/-- `NS_MONTHS[i].startDeg` as read by the sector loop of
`calculateNSMonth`. -/
def nsStartDeg (i : ℕ) : ℚ := ((NS_MONTHS.get? i).map NSMonthEntry.startDeg).getD 0

/-- One test of the sector loop in `calculateNSMonth`
(`src/calendar/conversion.ts`): sector `i` runs from its own `startDeg` to
the next sector's `startDeg`, with wraparound when the end is not above the
start. -/
def sectorHit (solarLong : ℚ) (i : ℕ) : Bool :=
  let startDeg := nsStartDeg i
  let endDeg := nsStartDeg ((i + 1) % NS_MONTHS.length)
  if startDeg < endDeg then decide (startDeg ≤ solarLong) && decide (solarLong < endDeg)
  else decide (startDeg ≤ solarLong) || decide (solarLong < endDeg)

/-- The first matching sector of `calculateNSMonth`'s loop (`none` models
falling through the loop). -/
def findSector (solarLong : ℚ) : Option ℕ :=
  (List.range NS_MONTHS.length).find? (sectorHit solarLong)

/-- `calculateNSMonth` from `src/calendar/conversion.ts`: the loop returns
`i + 1` at the first matching sector; the fallback after the loop returns
month 1. -/
def calculateNSMonth (s : ℚ → ℚ) (jd : ℚ) : ℕ :=
  match findSector (getSolarLongitude s (findLastNewMoonJD s jd)) with
  | some i => i + 1
  | none => 1

/-- Field layout of `NSMonth` in `src/constants/types.ts`. -/
structure NSMonth where
  number : ℤ
  name : String
  nepaliName : String
  anala : ℤ
  nhala : ℤ

/-- Field layout of `NSAstronomical` in `src/constants/types.ts`. -/
structure NSAstronomical where
  solarLongitude : ℚ
  lunarLongitude : ℚ
  elongation : ℚ

/-- Field layout of `NSDate` in `src/constants/types.ts`. -/
structure NSDate where
  nsYear : ℤ
  month : NSMonth
  tithi : NSTithi
  astronomical : NSAstronomical
  julianDay : ℚ

/-- `getWeekday` from `src/calendar/conversion.ts`: JS `%` on the integer
`z` is `Int.tmod`, and the trailing `|| 7` maps a zero remainder to 7. -/
def getWeekday (jd : ℚ) : ℤ :=
  let z := ⌊jd + 1.5⌋
  let r := (z.tmod 7 + 7).tmod 7
  if r = 0 then 7 else r

/-- JS `String.padStart(2, "0")`. -/
def padStart2 (str : String) : String :=
  if str.length < 2 then String.mk (List.replicate (2 - str.length) '0') ++ str else str

/-- Return shape of `formatNSDate` in `src/calendar/conversion.ts`. -/
structure NSFormatted where
  numerical : String
  readable : String

/-- `formatNSDate` from `src/calendar/conversion.ts`; the template literal
is the left-to-right concatenation of its parts, and JS truthiness of the
numeric `anala` / `nhala` flags is `≠ 0`. -/
def formatNSDate (d : NSDate) : NSFormatted :=
  let monthSuffix := if d.month.anala ≠ 0 then "3" else if d.month.nhala ≠ 0 then "4" else "0"
  let paksha := if d.tithi.paksha = "थ्व" then "1" else "2"
  let tithiPadded := padStart2 (toString d.tithi.adjustedNumber)
  let weekday := getWeekday d.julianDay
  ⟨toString d.nsYear ++ "." ++ toString d.month.number ++ monthSuffix ++ paksha ++ "." ++
    tithiPadded ++ d.tithi.type ++ toString weekday,
   toString d.nsYear ++ " " ++ d.month.nepaliName ++ d.tithi.paksha ++ " " ++ d.tithi.name ++
    " - " ++ toString d.tithi.adjustedNumber⟩

/-- The numerical code of `formatNSDate` up to (excluding) the weekday
digit. -/
def numericalHead (d : NSDate) : String :=
  let monthSuffix := if d.month.anala ≠ 0 then "3" else if d.month.nhala ≠ 0 then "4" else "0"
  let paksha := if d.tithi.paksha = "थ्व" then "1" else "2"
  let tithiPadded := padStart2 (toString d.tithi.adjustedNumber)
  toString d.nsYear ++ "." ++ toString d.month.number ++ monthSuffix ++ paksha ++ "." ++
    tithiPadded ++ d.tithi.type

/-- Modelled from the spec: the reference weekday of a Julian Day,
`0 = Sunday, …, 6 = Saturday`, anchored by the standard correspondence that
JD 2451544.5 (2000-01-01, 00:00) falls on a Saturday. -/
def gregorianWeekday (jd : ℚ) : ℤ := (⌊jd + 0.5⌋ + 1) % 7

/-- Instant used by the degenerate-elongation counterexample:
`JD(2003-07-28) + 0.95`. -/
def cexInstant : ℚ := 2452848.5 + 0.95

/-- Century time at `cexInstant`. -/
def cexT : ℚ := (cexInstant - J2000) / 36525

/-- The argument `2 * D` that `getLunarLongitude` passes to the sine at
`cexInstant`. -/
def cexArg : ℚ :=
  2 * ((LUNAR_CONSTANTS.L0 + LUNAR_CONSTANTS.L1 * cexT) - SOLAR_CONSTANTS.L0 -
    SOLAR_CONSTANTS.L1 * cexT)

/-- Sine sample at `cexArg` (about -0.11, inside the range of a sine) that
makes the variation term close the residual gap between the lunar and solar
mean longitudes at `cexInstant`, so that the two normalised longitudes
coincide exactly. -/
def cexV : ℚ :=
  -(jsMod ((LUNAR_CONSTANTS.L0 + LUNAR_CONSTANTS.L1 * cexT) -
      (SOLAR_CONSTANTS.L0 + SOLAR_CONSTANTS.L1 * cexT)) 360) / LUNAR_CONSTANTS.VARIATION

/-- A sine realisation that vanishes except at `cexArg`: an admissible
sample set for the abstracted `Math.sin`, under which the elongation at
`cexInstant` is exactly zero. -/
def cexSin : ℚ → ℚ := fun x => if x = cexArg then cexV else 0

/-- A sunrise realisation that maps every day to `cexInstant`. -/
def cexRise : ℚ → ℚ := fun _ => cexInstant

instance {ε α : Type} [DecidableEq ε] [DecidableEq α] : DecidableEq (Except ε α) := fun a b =>
  match a, b with
  | .error e₁, .error e₂ =>
    if h : e₁ = e₂ then .isTrue (by rw [h]) else .isFalse (by intro hc; cases hc; exact h rfl)
  | .error _, .ok _ => .isFalse (by intro hc; cases hc)
  | .ok _, .error _ => .isFalse (by intro hc; cases hc)
  | .ok v₁, .ok v₂ =>
    if h : v₁ = v₂ then .isTrue (by rw [h]) else .isFalse (by intro hc; cases hc; exact h rfl)

theorem jsMod_mem_of_nonneg {x y : ℚ} (hx : 0 ≤ x) (hy : 0 < y) :
    0 ≤ jsMod x y ∧ jsMod x y < y := by
  unfold jsMod jsTrunc
  have hxy : 0 ≤ x / y := div_nonneg hx hy.le
  rw [if_neg (not_lt.mpr hxy)]
  have h1 : (⌊x / y⌋ : ℚ) ≤ x / y := Int.floor_le _
  have h2 : x / y < ⌊x / y⌋ + 1 := Int.lt_floor_add_one _
  have hyx : y * (x / y) = x := by
    field_simp
  constructor
  · nlinarith [mul_le_mul_of_nonneg_left h1 hy.le]
  · nlinarith [mul_lt_mul_of_pos_left h2 hy]

theorem jsMod_mem_of_neg {x y : ℚ} (hx : x < 0) (hy : 0 < y) :
    -y < jsMod x y ∧ jsMod x y ≤ 0 := by
  unfold jsMod jsTrunc
  have hxy : x / y < 0 := div_neg_of_neg_of_pos hx hy
  rw [if_pos hxy]
  have h1 : x / y ≤ (⌈x / y⌉ : ℚ) := Int.le_ceil _
  have h2 : (⌈x / y⌉ : ℚ) - 1 < x / y := by
    have := Int.ceil_lt_add_one (x / y)
    linarith
  have hyx : y * (x / y) = x := by
    field_simp
  constructor
  · nlinarith [mul_lt_mul_of_pos_left h2 hy]
  · nlinarith [mul_le_mul_of_nonneg_left h1 hy.le]

theorem normalize360_mem (x : ℚ) : 0 ≤ normalize360 x ∧ normalize360 x < 360 := by
  unfold normalize360
  rcases le_or_lt 0 x with hx | hx
  · obtain ⟨h1, h2⟩ := jsMod_mem_of_nonneg hx (by norm_num : (0:ℚ) < 360)
    simp only [if_neg (not_lt.mpr h1)]
    exact ⟨h1, h2⟩
  · obtain ⟨h1, h2⟩ := jsMod_mem_of_neg hx (by norm_num : (0:ℚ) < 360)
    by_cases hr : jsMod x 360 < 0
    · simp only [if_pos hr]
      constructor <;> linarith
    · simp only [if_neg hr]
      push_neg at hr
      exact ⟨hr, by linarith⟩

theorem getSolarLongitude_mem (s : ℚ → ℚ) (jd : ℚ) :
    0 ≤ getSolarLongitude s jd ∧ getSolarLongitude s jd < 360 := by
  unfold getSolarLongitude
  exact normalize360_mem _

theorem getLunarLongitude_mem (s : ℚ → ℚ) (jd : ℚ) :
    0 ≤ getLunarLongitude s jd ∧ getLunarLongitude s jd < 360 := by
  unfold getLunarLongitude
  exact normalize360_mem _

/-- C8: for every JD, the values returned by `getSolarLongitude` and
`getLunarLongitude` lie in the half-open range `[0, 360)` (for every
realisation of the sine function, hence for the real one). -/
theorem longitudes_mem_Ico (s : ℚ → ℚ) (jd : ℚ) :
    (0 ≤ getSolarLongitude s jd ∧ getSolarLongitude s jd < 360) ∧
    (0 ≤ getLunarLongitude s jd ∧ getLunarLongitude s jd < 360) :=
  ⟨getSolarLongitude_mem s jd, getLunarLongitude_mem s jd⟩

/-- C3: for month indices in `[1, 12]`, `checkForAnalaAndNhala` sets `anala`
to 1 exactly when the next month index equals the current one, sets `nhala`
to 1 exactly when the next month index exceeds the current one by exactly 2,
and never sets both flags to 1. -/
theorem checkForAnalaAndNhala_flags (thisMonth nextMonth : ℤ)
    (h1 : 1 ≤ thisMonth) (h2 : thisMonth ≤ 12)
    (h3 : 1 ≤ nextMonth) (h4 : nextMonth ≤ 12) :
    ((checkForAnalaAndNhala thisMonth nextMonth).anala = 1 ↔ nextMonth = thisMonth) ∧
    ((checkForAnalaAndNhala thisMonth nextMonth).nhala = 1 ↔ nextMonth - thisMonth = 2) ∧
    ¬((checkForAnalaAndNhala thisMonth nextMonth).anala = 1 ∧
      (checkForAnalaAndNhala thisMonth nextMonth).nhala = 1) := by
  unfold checkForAnalaAndNhala
  refine ⟨?_, ?_, ?_⟩ <;> split_ifs <;> simp_all <;> omega

theorem checkForAnalaAndNhala_flags_witness :
    ((checkForAnalaAndNhala 3 5).anala = 1 ↔ (5:ℤ) = 3) ∧
    ((checkForAnalaAndNhala 3 5).nhala = 1 ↔ (5:ℤ) - 3 = 2) ∧
    ¬((checkForAnalaAndNhala 3 5).anala = 1 ∧ (checkForAnalaAndNhala 3 5).nhala = 1) :=
  checkForAnalaAndNhala_flags 3 5 (by norm_num) (by norm_num) (by norm_num) (by norm_num)

/-- C10: for month indices in `[1, 12]` with the next index strictly below
the current one (the wrap past month 12 at the year boundary),
`checkForAnalaAndNhala` flags neither a leap nor a skipped month, because the
difference-of-exactly-2 test is applied to the raw indices without modular
wraparound. -/
theorem checkForAnalaAndNhala_wraparound_unflagged (thisMonth nextMonth : ℤ)
    (h1 : 1 ≤ thisMonth) (h2 : thisMonth ≤ 12)
    (h3 : 1 ≤ nextMonth) (h4 : nextMonth ≤ 12) (h5 : nextMonth < thisMonth) :
    (checkForAnalaAndNhala thisMonth nextMonth).anala = 0 ∧
    (checkForAnalaAndNhala thisMonth nextMonth).nhala = 0 := by
  unfold checkForAnalaAndNhala
  constructor <;> split_ifs <;> simp_all <;> omega

theorem checkForAnalaAndNhala_wraparound_unflagged_witness :
    (checkForAnalaAndNhala 12 1).anala = 0 ∧ (checkForAnalaAndNhala 12 1).nhala = 0 :=
  checkForAnalaAndNhala_wraparound_unflagged 12 1 (by norm_num) (by norm_num)
    (by norm_num) (by norm_num) (by norm_num)

theorem isLeapYear_iff (z : ℤ) : isLeapYear z = true ↔ specLeapYear z := by
  unfold isLeapYear specLeapYear
  simp only [Bool.or_eq_true, Bool.and_eq_true, beq_iff_eq, bne_iff_ne, ne_eq,
    Int.dvd_iff_tmod_eq_zero]

theorem int_cast_of_den_one {q : ℚ} (h : q.den = 1) : (q.num : ℚ) = q := by
  conv_rhs => rw [← Rat.num_div_den q]
  rw [h]
  simp

theorem daysInMonthCode_eq_spec (year month : ℚ)
    (hm : month.den = 1) (h1 : 1 ≤ month) (h2 : month ≤ 12) :
    daysInMonthCode year month = specDaysInMonth year month := by
  obtain ⟨n, rfl⟩ : ∃ n : ℤ, month = (n : ℚ) := ⟨month.num, (int_cast_of_den_one hm).symm⟩
  have hn1 : 1 ≤ n := by exact_mod_cast h1
  have hn2 : n ≤ 12 := by exact_mod_cast h2
  unfold daysInMonthCode specDaysInMonth daysInMonthList
  rw [Int.floor_intCast]
  by_cases hl : specLeapYear ⌊year⌋
  · have ht : isLeapYear ⌊year⌋ = true := (isLeapYear_iff _).mpr hl
    rw [ht]
    simp only [if_pos hl]
    interval_cases n <;> decide
  · have ht : isLeapYear ⌊year⌋ = false := by
      rw [← Bool.not_eq_true]
      exact fun hc => hl ((isLeapYear_iff _).mp hc)
    rw [ht]
    simp only [if_neg hl]
    interval_cases n <;> decide

theorem specDaysInMonth_le_31 (year month : ℚ) : specDaysInMonth year month ≤ 31 := by
  unfold specDaysInMonth
  split_ifs <;> norm_num

theorem specDaysInMonth_pos (year month : ℚ) : 1 ≤ specDaysInMonth year month := by
  unfold specDaysInMonth
  split_ifs <;> norm_num

theorem gregorianToJD_eq_ok_of_valid (year month day : ℚ)
    (h : validGregorian year month day) :
    gregorianToJD year month day = .ok (jdCore year month day) := by
  obtain ⟨hy, hm, hd, h1, h2, h3, h4⟩ := h
  have hcode : daysInMonthCode year month = specDaysInMonth year month :=
    daysInMonthCode_eq_spec year month hm h1 h2
  unfold gregorianToJD
  rw [if_neg (by simp [hy]), if_neg (by push_neg; exact ⟨hm, h1, by linarith⟩),
    if_neg (by push_neg; exact ⟨hd, h3, by linarith [specDaysInMonth_le_31 year month]⟩),
    if_neg (by rw [hcode]; linarith)]

theorem validGregorian_of_ok (year month day : ℚ) {v : ℚ}
    (h : gregorianToJD year month day = .ok v) : validGregorian year month day := by
  unfold gregorianToJD at h
  split_ifs at h with hy hm hd hdm
  push_neg at hy hm hd hdm
  obtain ⟨hm1, hm2, hm3⟩ := hm
  obtain ⟨hd1, hd2, hd3⟩ := hd
  refine ⟨hy, hm1, hd1, hm2, by linarith, hd2, ?_⟩
  rw [← daysInMonthCode_eq_spec year month hm1 hm2 (by linarith)]
  exact hdm

/-- C6: `gregorianToJD` raises an error if and only if the input is invalid:
non-integer year/month/day, month outside `[1, 12]`, or day outside
`[1, days-in-month]` under the standard leap-year rule; every valid input
(including 5–14 Oct 1582, which fall in the calendar-reform gap) yields a
number without an error. -/
theorem gregorianToJD_ok_iff_valid (year month day : ℚ) :
    (∃ v, gregorianToJD year month day = .ok v) ↔ validGregorian year month day := by
  constructor
  · rintro ⟨v, hv⟩
    exact validGregorian_of_ok year month day hv
  · intro h
    exact ⟨jdCore year month day, gregorianToJD_eq_ok_of_valid year month day h⟩

/-- C7: on valid inputs, `gregorianToJD` applies the Gregorian correction
term `2 - ⌊y/100⌋ + ⌊⌊y/100⌋/4⌋` exactly for dates on or after 15 Oct 1582,
and the uncorrected Julian form for all earlier dates, including those before
5 Oct 1582. -/
theorem gregorianToJD_reform_branch (year month day : ℚ)
    (h : validGregorian year month day) :
    gregorianToJD year month day =
      .ok (if onOrAfterReform year month day then jdWithGregorianCorrection year month day
        else jdJulianForm year month day) := by
  rw [gregorianToJD_eq_ok_of_valid year month day h]
  congr 1
  unfold jdCore onOrAfterReform jdWithGregorianCorrection jdJulianForm
  split_ifs <;> first | rfl | tauto

theorem gregorianToJD_reform_branch_witness :
    gregorianToJD 2000 1 1 =
      .ok (if onOrAfterReform 2000 1 1 then jdWithGregorianCorrection 2000 1 1
        else jdJulianForm 2000 1 1) :=
  gregorianToJD_reform_branch 2000 1 1 (by decide)

theorem elongationDeg_mem (s : ℚ → ℚ) (t : ℚ) :
    0 ≤ elongationDeg s t ∧ elongationDeg s t < 360 := by
  unfold elongationDeg
  have h1 := getLunarLongitude_mem s t
  have h2 := getSolarLongitude_mem s t
  exact jsMod_mem_of_nonneg (by linarith [h1.1, h2.2]) (by norm_num)

theorem tithiCandidate_mem (s : ℚ → ℚ) (t : ℚ) :
    0 ≤ tithiCandidate s t ∧ tithiCandidate s t ≤ 30 ∧
    (elongationDeg s t ≠ 0 → 1 ≤ tithiCandidate s t) := by
  obtain ⟨h1, h2⟩ := elongationDeg_mem s t
  unfold tithiCandidate
  refine ⟨Int.ceil_nonneg (by positivity), ?_, ?_⟩
  · exact Int.ceil_le.mpr (by push_cast; linarith)
  · intro hnz
    have he : 0 < elongationDeg s t := lt_of_le_of_ne h1 (Ne.symm hnz)
    exact Int.ceil_pos.mpr (div_pos he (by norm_num))

theorem calculateTithi_eq_max (s rise : ℚ → ℚ) (jd : ℚ) :
    calculateTithi s rise jd =
      max (tithiCandidate s (rise jd)) (tithiCandidate s (jd + 0.95)) := by
  unfold calculateTithi tithiCandidate
  dsimp only
  split_ifs with h <;> omega

theorem convertToTithi_ok (s rise : ℚ → ℚ) (year month day jd : ℚ)
    (hjd : gregorianToJD year month day = .ok jd) {ti : NSTithi}
    (hti : convertToTithi s rise year month day = .ok ti) :
    ti = (let tithi := calculateTithi s rise jd
      let prevTithi := calculateTithi s rise (jd - 1)
      let tithiType :=
        if tithi = prevTithi then "8" else if prevTithi + 2 ≤ tithi then "9" else "0"
      let adjustedTithi := (tithi - 1).tmod 15 + 1
      let paksha := if tithi ≤ 15 then "थ्व" else "गा"
      let name :=
        if adjustedTithi = 15 ∧ paksha = "गा" then "अम्माई"
        else jsIndexStr TITHI_NAMES (adjustedTithi - 1)
      (⟨tithi, adjustedTithi, paksha, name, tithiType⟩ : NSTithi)) := by
  unfold convertToTithi at hti
  rw [hjd] at hti
  simp only [Except.map] at hti
  exact (Except.ok.injEq _ _ ▸ hti).symm

/-- C4: for a valid Gregorian date, the tithi number is the larger of the two
candidates `ceil(elongation-at-sunrise / 12)` and
`ceil(elongation-at-(JD + 0.95) / 12)`, and the type is "repeated" (8)
exactly when it equals the previous day's tithi, "skipped" (9) exactly when
it exceeds the previous day's tithi by 2 or more, and "normal" (0)
otherwise. -/
theorem convertToTithi_max_and_type (s rise : ℚ → ℚ) (year month day jd : ℚ)
    (ti : NSTithi) (hjd : gregorianToJD year month day = .ok jd)
    (hti : convertToTithi s rise year month day = .ok ti) :
    ti.number = max (tithiCandidate s (rise jd)) (tithiCandidate s (jd + 0.95)) ∧
    (ti.type = "8" ↔ ti.number = calculateTithi s rise (jd - 1)) ∧
    (ti.type = "9" ↔ calculateTithi s rise (jd - 1) + 2 ≤ ti.number) ∧
    (ti.type = "0" ↔ (ti.number ≠ calculateTithi s rise (jd - 1) ∧
      ti.number < calculateTithi s rise (jd - 1) + 2)) := by
  rw [convertToTithi_ok s rise year month day jd hjd hti]
  simp only []
  refine ⟨calculateTithi_eq_max s rise jd, ?_, ?_, ?_⟩ <;>
    split_ifs with h1 h2 <;> simp_all <;> omega

theorem ceil_as_neg_floor (a : ℚ) : ⌈a⌉ = -⌊-a⌋ := by
  rw [Int.floor_neg]
  ring

theorem gregorianToJD_value_20240414 : gregorianToJD 2024 4 14 = .ok 2460414.5 := by
  have hdm : daysInMonthCode 2024 4 = 30 := by with_unfolding_all decide
  have hcore : jdCore 2024 4 14 = 2460414.5 := by norm_num [jdCore]
  norm_num [gregorianToJD, hdm, hcore]

theorem convertToTithi_value_20240414 :
    convertToTithi (fun _ => 0) (fun t => t) 2024 4 14 =
      .ok ⟨7, 7, "थ्व", "सप्तमी", "0"⟩ := by
  have h1 : calculateTithi (fun _ => 0) (fun t => t) (2460414.5 : ℚ) = 7 := by
    norm_num [calculateTithi, elongationDeg, getLunarLongitude, getSolarLongitude,
      normalize360, jsMod, jsTrunc, J2000, SOLAR_CONSTANTS, LUNAR_CONSTANTS, ceil_as_neg_floor]
  have h2 : calculateTithi (fun _ => 0) (fun t => t) ((2460414.5 : ℚ) - 1) = 6 := by
    norm_num [calculateTithi, elongationDeg, getLunarLongitude, getSolarLongitude,
      normalize360, jsMod, jsTrunc, J2000, SOLAR_CONSTANTS, LUNAR_CONSTANTS, ceil_as_neg_floor]
  unfold convertToTithi
  rw [gregorianToJD_value_20240414]
  simp only [Except.map]
  rw [h1, h2]
  decide

theorem convertToTithi_max_and_type_witness :
    ((⟨7, 7, "थ्व", "सप्तमी", "0"⟩ : NSTithi)).number =
      max (tithiCandidate (fun _ => 0) ((fun t => t) (2460414.5 : ℚ)))
        (tithiCandidate (fun _ => 0) ((2460414.5 : ℚ) + 0.95)) ∧
    (((⟨7, 7, "थ्व", "सप्तमी", "0"⟩ : NSTithi)).type = "8" ↔
      ((⟨7, 7, "थ्व", "सप्तमी", "0"⟩ : NSTithi)).number =
        calculateTithi (fun _ => 0) (fun t => t) ((2460414.5 : ℚ) - 1)) ∧
    (((⟨7, 7, "थ्व", "सप्तमी", "0"⟩ : NSTithi)).type = "9" ↔
      calculateTithi (fun _ => 0) (fun t => t) ((2460414.5 : ℚ) - 1) + 2 ≤
        ((⟨7, 7, "थ्व", "सप्तमी", "0"⟩ : NSTithi)).number) ∧
    (((⟨7, 7, "थ्व", "सप्तमी", "0"⟩ : NSTithi)).type = "0" ↔
      (((⟨7, 7, "थ्व", "सप्तमी", "0"⟩ : NSTithi)).number ≠
        calculateTithi (fun _ => 0) (fun t => t) ((2460414.5 : ℚ) - 1) ∧
       ((⟨7, 7, "थ्व", "सप्तमी", "0"⟩ : NSTithi)).number <
        calculateTithi (fun _ => 0) (fun t => t) ((2460414.5 : ℚ) - 1) + 2)) :=
  convertToTithi_max_and_type (fun _ => 0) (fun t => t) 2024 4 14 2460414.5
    ⟨7, 7, "थ्व", "सप्तमी", "0"⟩ gregorianToJD_value_20240414 convertToTithi_value_20240414

/-- C1 (amended): for every valid Gregorian date, provided the elongation at
sunrise or at `JD + 0.95` is nonzero, the resolved tithi satisfies
`number ∈ [1, 30]`, `adjustedNumber ∈ [1, 15]`, and `paksha` is waxing
exactly when `number ≤ 15`.  (When both sampled elongations are exactly
zero, `Math.ceil` yields the out-of-range tithi number 0; see the
counterexample.) -/
theorem convertToTithi_invariants (s rise : ℚ → ℚ) (year month day jd : ℚ)
    (ti : NSTithi) (hjd : gregorianToJD year month day = .ok jd)
    (hti : convertToTithi s rise year month day = .ok ti)
    (hnz : elongationDeg s (rise jd) ≠ 0 ∨ elongationDeg s (jd + 0.95) ≠ 0) :
    (1 ≤ ti.number ∧ ti.number ≤ 30) ∧
    (1 ≤ ti.adjustedNumber ∧ ti.adjustedNumber ≤ 15) ∧
    (ti.paksha = "थ्व" ↔ ti.number ≤ 15) := by
  have hmax := calculateTithi_eq_max s rise jd
  have hc1 := tithiCandidate_mem s (rise jd)
  have hc2 := tithiCandidate_mem s (jd + 0.95)
  have hnum : 1 ≤ calculateTithi s rise jd ∧ calculateTithi s rise jd ≤ 30 := by
    rcases hnz with hnz | hnz
    · have := hc1.2.2 hnz
      omega
    · have := hc2.2.2 hnz
      omega
  rw [convertToTithi_ok s rise year month day jd hjd hti]
  simp only []
  refine ⟨hnum, ?_, ?_⟩
  · have h0 : 0 ≤ calculateTithi s rise jd - 1 := by omega
    rw [Int.tmod_eq_emod h0 (by norm_num)]
    omega
  · split_ifs with h
    · simp [h]
    · constructor
      · intro hc
        exact absurd hc (by decide)
      · intro hc
        exact absurd hc h

theorem convertToTithi_invariants_witness :
    (1 ≤ ((⟨7, 7, "थ्व", "सप्तमी", "0"⟩ : NSTithi)).number ∧
      ((⟨7, 7, "थ्व", "सप्तमी", "0"⟩ : NSTithi)).number ≤ 30) ∧
    (1 ≤ ((⟨7, 7, "थ्व", "सप्तमी", "0"⟩ : NSTithi)).adjustedNumber ∧
      ((⟨7, 7, "थ्व", "सप्तमी", "0"⟩ : NSTithi)).adjustedNumber ≤ 15) ∧
    (((⟨7, 7, "थ्व", "सप्तमी", "0"⟩ : NSTithi)).paksha = "थ्व" ↔
      ((⟨7, 7, "थ्व", "सप्तमी", "0"⟩ : NSTithi)).number ≤ 15) :=
  convertToTithi_invariants (fun _ => 0) (fun t => t) 2024 4 14 2460414.5
    ⟨7, 7, "थ्व", "सप्तमी", "0"⟩ gregorianToJD_value_20240414 convertToTithi_value_20240414
    (Or.inl (by
      norm_num [elongationDeg, getLunarLongitude, getSolarLongitude, normalize360,
        jsMod, jsTrunc, J2000, SOLAR_CONSTANTS, LUNAR_CONSTANTS]))

/-- C2: the overshoot branch of `findLastNewMoonJD` does not evaluate every
periodic correction term with the previous lunation index's own anomalies:
the twelfth term `0.001 * sin(2F' - M')` is evaluated with the current
lunation's lunar mean anomaly.  At lunation `k = 1`, `t = 0` (with the sine
abstraction instantiated by the identity) the code's recomputed correction
differs from the claimed all-previous-index correction. -/
theorem nmCorrection_overshoot_term_mismatch :
    nmCorrection (fun x => x) 0 (nmAnomalies 0 0).1 (nmAnomalies 0 0).2.1
        (nmAnomalies 0 0).2.2 (nmAnomalies 1 0).2.1 ≠
      nmCorrection (fun x => x) 0 (nmAnomalies 0 0).1 (nmAnomalies 0 0).2.1
        (nmAnomalies 0 0).2.2 (nmAnomalies 0 0).2.1 := by
  norm_num [nmCorrection, nmAnomalies, jsMod, jsTrunc]

theorem findSector_covers {x : ℚ} (h0 : 0 ≤ x) (h1 : x < 360) :
    (findSector x).isSome = true := by
  unfold findSector
  have cover : ∃ i, i ∈ List.range NS_MONTHS.length ∧ sectorHit x i = true := by
    rcases lt_or_le x 30 with h | h
    · refine ⟨5, by decide, ?_⟩
      rw [show sectorHit x 5 = (decide ((0:ℚ) ≤ x) && decide (x < 30)) from rfl]
      simp only [Bool.and_eq_true, decide_eq_true_eq]
      exact ⟨h0, h⟩
    rcases lt_or_le x 60 with h2 | h2
    · refine ⟨6, by decide, ?_⟩
      rw [show sectorHit x 6 = (decide ((30:ℚ) ≤ x) && decide (x < 60)) from rfl]
      simp only [Bool.and_eq_true, decide_eq_true_eq]
      exact ⟨h, h2⟩
    rcases lt_or_le x 90 with h3 | h3
    · refine ⟨7, by decide, ?_⟩
      rw [show sectorHit x 7 = (decide ((60:ℚ) ≤ x) && decide (x < 90)) from rfl]
      simp only [Bool.and_eq_true, decide_eq_true_eq]
      exact ⟨h2, h3⟩
    rcases lt_or_le x 120 with h4 | h4
    · refine ⟨8, by decide, ?_⟩
      rw [show sectorHit x 8 = (decide ((90:ℚ) ≤ x) && decide (x < 120)) from rfl]
      simp only [Bool.and_eq_true, decide_eq_true_eq]
      exact ⟨h3, h4⟩
    rcases lt_or_le x 150 with h5 | h5
    · refine ⟨9, by decide, ?_⟩
      rw [show sectorHit x 9 = (decide ((120:ℚ) ≤ x) && decide (x < 150)) from rfl]
      simp only [Bool.and_eq_true, decide_eq_true_eq]
      exact ⟨h4, h5⟩
    rcases lt_or_le x 180 with h6 | h6
    · refine ⟨10, by decide, ?_⟩
      rw [show sectorHit x 10 = (decide ((150:ℚ) ≤ x) && decide (x < 180)) from rfl]
      simp only [Bool.and_eq_true, decide_eq_true_eq]
      exact ⟨h5, h6⟩
    rcases lt_or_le x 210 with h7 | h7
    · refine ⟨11, by decide, ?_⟩
      rw [show sectorHit x 11 = (decide ((180:ℚ) ≤ x) && decide (x < 210)) from rfl]
      simp only [Bool.and_eq_true, decide_eq_true_eq]
      exact ⟨h6, h7⟩
    rcases lt_or_le x 240 with h8 | h8
    · refine ⟨0, by decide, ?_⟩
      rw [show sectorHit x 0 = (decide ((210:ℚ) ≤ x) && decide (x < 240)) from rfl]
      simp only [Bool.and_eq_true, decide_eq_true_eq]
      exact ⟨h7, h8⟩
    rcases lt_or_le x 270 with h9 | h9
    · refine ⟨1, by decide, ?_⟩
      rw [show sectorHit x 1 = (decide ((240:ℚ) ≤ x) && decide (x < 270)) from rfl]
      simp only [Bool.and_eq_true, decide_eq_true_eq]
      exact ⟨h8, h9⟩
    rcases lt_or_le x 300 with h10 | h10
    · refine ⟨2, by decide, ?_⟩
      rw [show sectorHit x 2 = (decide ((270:ℚ) ≤ x) && decide (x < 300)) from rfl]
      simp only [Bool.and_eq_true, decide_eq_true_eq]
      exact ⟨h9, h10⟩
    rcases lt_or_le x 330 with h11 | h11
    · refine ⟨3, by decide, ?_⟩
      rw [show sectorHit x 3 = (decide ((300:ℚ) ≤ x) && decide (x < 330)) from rfl]
      simp only [Bool.and_eq_true, decide_eq_true_eq]
      exact ⟨h10, h11⟩
    · refine ⟨4, by decide, ?_⟩
      rw [show sectorHit x 4 = (decide ((330:ℚ) ≤ x) || decide (x < 0)) from rfl]
      simp only [Bool.or_eq_true, decide_eq_true_eq]
      exact Or.inl h11
  obtain ⟨i, hmem, hhit⟩ := cover
  obtain ⟨j, hj⟩ := List.find?_isSome.mpr ⟨i, hmem, hhit⟩ |> Option.isSome_iff_exists.mp
  rw [hj]
  rfl

/-- C5: `calculateNSMonth` always returns a month in `[1, 12]`, and the
fallback branch after the sector loop is unreachable: the solar longitude at
the last new moon is normalised to `[0, 360)`, which the 12 thirty-degree
sectors (including the wraparound sector) cover completely. -/
theorem calculateNSMonth_range_and_total (s : ℚ → ℚ) (jd : ℚ) :
    (1 ≤ calculateNSMonth s jd ∧ calculateNSMonth s jd ≤ 12) ∧
    (findSector (getSolarLongitude s (findLastNewMoonJD s jd))).isSome = true := by
  obtain ⟨h0, h1⟩ := getSolarLongitude_mem s (findLastNewMoonJD s jd)
  have hsome := findSector_covers h0 h1
  refine ⟨?_, hsome⟩
  unfold calculateNSMonth
  obtain ⟨i, hi⟩ := Option.isSome_iff_exists.mp hsome
  have hlt : i < 12 := by
    have hmem := List.mem_of_find?_eq_some hi
    simpa using List.mem_range.mp hmem
  rw [hi]
  show 1 ≤ i + 1 ∧ i + 1 ≤ 12
  omega

theorem tmod_seven_norm (z : ℤ) : (z.tmod 7 + 7).tmod 7 = z % 7 := by
  cases z with
  | ofNat m =>
    have hz : (0 : ℤ) ≤ Int.ofNat m := Int.ofNat_nonneg m
    rw [Int.tmod_eq_emod hz (by norm_num),
      Int.tmod_eq_emod (by have := Int.emod_nonneg (Int.ofNat m) (by norm_num : (7:ℤ) ≠ 0); omega)
        (by norm_num)]
    omega
  | negSucc m =>
    have h1 : (Int.negSucc m).tmod 7 = -(((m + 1) % 7 : ℕ) : ℤ) := rfl
    have h2 : ((m + 1) % 7 : ℕ) < 7 := Nat.mod_lt _ (by norm_num)
    rw [h1, Int.tmod_eq_emod (by omega) (by norm_num)]
    have h3 : (((m + 1) % 7 : ℕ) : ℤ) = ((m + 1 : ℕ) : ℤ) % 7 := by push_cast; ring_nf
    have h4 : (Int.negSucc m) = -((m : ℤ) + 1) := Int.negSucc_eq m
    rw [h3, h4]
    push_cast
    omega

theorem getWeekday_eq_emod_form (jd : ℚ) :
    getWeekday jd = (if ⌊jd + 1.5⌋ % 7 = 0 then 7 else ⌊jd + 1.5⌋ % 7) := by
  unfold getWeekday
  show (if (⌊jd + 1.5⌋.tmod 7 + 7).tmod 7 = 0 then 7 else (⌊jd + 1.5⌋.tmod 7 + 7).tmod 7) = _
  rw [tmod_seven_norm]

theorem floor_shift_half (jd : ℚ) : ⌊jd + 1.5⌋ = ⌊jd + 0.5⌋ + 1 := by
  rw [show jd + 1.5 = (jd + 0.5) + 1 by ring]
  exact_mod_cast Int.floor_add_int (jd + 0.5) 1

/-- C9 (amended): `formatNSDate` places the digit `getWeekday julianDay` at
the end of the numerical string; that digit equals
`((floor(JD + 1.5) mod 7) or 7)` with a zero remainder mapped to 7 and
always lies in `[1, 7]`; but the encoding assigns 1 to Monday through 6 to
Saturday, with 7 for Sunday (not 1 = Sunday … 7 = Saturday). -/
theorem formatNSDate_weekday_digit (d : NSDate) :
    (formatNSDate d).numerical = numericalHead d ++ toString (getWeekday d.julianDay) ∧
    getWeekday d.julianDay =
      (if ⌊d.julianDay + 1.5⌋ % 7 = 0 then 7 else ⌊d.julianDay + 1.5⌋ % 7) ∧
    (1 ≤ getWeekday d.julianDay ∧ getWeekday d.julianDay ≤ 7) ∧
    getWeekday d.julianDay =
      (if gregorianWeekday d.julianDay = 0 then 7 else gregorianWeekday d.julianDay) := by
  have hemod := getWeekday_eq_emod_form d.julianDay
  have hb : 0 ≤ ⌊d.julianDay + 1.5⌋ % 7 ∧ ⌊d.julianDay + 1.5⌋ % 7 < 7 :=
    ⟨Int.emod_nonneg _ (by norm_num), Int.emod_lt_of_pos _ (by norm_num)⟩
  refine ⟨rfl, hemod, ?_, ?_⟩
  · rw [hemod]
    split_ifs <;> omega
  · rw [hemod]
    unfold gregorianWeekday
    rw [floor_shift_half]

/-- C9: at JD 2451545.5 (2000-01-02, a Sunday by the reference weekday
anchor), the weekday digit is 7, not the 1 that the claimed
`1 = Sunday … 7 = Saturday` encoding would require; a sample `NSDate` with
that JD gets the digit 7 at the end of its numerical code. -/
theorem getWeekday_sunday_is_seven_cex :
    gregorianWeekday 2451545.5 = 0 ∧ getWeekday 2451545.5 = 7 ∧ (7 : ℤ) ≠ 1 ∧
    (formatNSDate ⟨1120, ⟨1, "Kachhalā", "कछला", 0, 0⟩, ⟨1, 1, "थ्व", "पारु", "0"⟩,
      ⟨0, 0, 0⟩, 2451545.5⟩).numerical = "1120.101.0107" := by
  have hf : (⌊(2451545.5 : ℚ) + 1.5⌋ : ℤ) = 2451547 := by norm_num
  have hg : (⌊(2451545.5 : ℚ) + 0.5⌋ : ℤ) = 2451546 := by norm_num
  refine ⟨?_, ?_, by norm_num, ?_⟩
  · unfold gregorianWeekday
    rw [hg]
    decide
  · unfold getWeekday
    rw [hf]
    decide
  · unfold formatNSDate padStart2 getWeekday
    rw [hf]
    rfl

/-- C1: at the valid date 2003-07-28, under an admissible realisation of the
abstracted sine and sunrise maps for which the elongation at both sampled
instants is exactly zero, `convertToTithi` returns tithi number 0 and
adjusted number 0: `Math.ceil(0 / 12) = 0`, so the claimed invariants
`number ∈ [1, 30]` and `adjustedNumber ∈ [1, 15]` fail. -/
theorem convertToTithi_zero_elongation_cex :
    (convertToTithi cexSin cexRise 2003 7 28).toOption.map NSTithi.number = some 0 ∧
    (convertToTithi cexSin cexRise 2003 7 28).toOption.map NSTithi.adjustedNumber = some 0 ∧
    ¬(1 ≤ (0 : ℤ)) := by
  have hjd : gregorianToJD 2003 7 28 = .ok 2452848.5 := by
    have hdm : daysInMonthCode 2003 7 = 31 := by with_unfolding_all decide
    have hcore : jdCore 2003 7 28 = 2452848.5 := by norm_num [jdCore]
    norm_num [gregorianToJD, hdm, hcore]
  have h1 : calculateTithi cexSin cexRise (2452848.5 : ℚ) = 0 := by
    norm_num [calculateTithi, elongationDeg, getLunarLongitude, getSolarLongitude,
      normalize360, jsMod, jsTrunc, J2000, SOLAR_CONSTANTS, LUNAR_CONSTANTS,
      cexSin, cexRise, cexArg, cexV, cexInstant, cexT, ceil_as_neg_floor]
  have h2 : calculateTithi cexSin cexRise ((2452848.5 : ℚ) - 1) = 29 := by
    norm_num [calculateTithi, elongationDeg, getLunarLongitude, getSolarLongitude,
      normalize360, jsMod, jsTrunc, J2000, SOLAR_CONSTANTS, LUNAR_CONSTANTS,
      cexSin, cexRise, cexArg, cexV, cexInstant, cexT, ceil_as_neg_floor]
  unfold convertToTithi
  rw [hjd]
  simp only [Except.map]
  rw [h1, h2]
  refine ⟨?_, ?_, by norm_num⟩ <;> decide

end NepalSambat
